import Mathlib

/-!
Verification of the GrkApp greenhouse-gas dashboard (src/gui11.py) against
its specification.  The Python program fetches hourly CO₂/CH₄ data from an
HTTP API into a pandas DataFrame, filters it per view (today / strictly
future / inclusive date range), classifies averaged values into a
three-level status, and exports the displayed rows to CSV.

The shallow embedding below models:
  * a pandas DataFrame as an ordered list of column names plus a list of
    rows (each row a list of cells);
  * the fetcher `get_air_quality_data` as a total function over an abstract
    API outcome, with the Python try/except modelled via `Except`;
  * the three view filters of `update_graph`, `update_forecast` and
    `ambil_data` as row filters keyed by the "Waktu" column;
  * the status classifier of `show_kpi` over rational averages;
  * `DataFrame.to_csv(..., index=False)` as a list of comma-joined lines.
-/

namespace GrkApp

/-- A calendar timestamp at (sub-)hourly resolution: a calendar day number
plus a minute-of-day.  `datetime.date()` extraction is the `date` field;
comparison is lexicographic, as for Python `datetime`. -/
structure Timestamp where
  date : Int
  minute : Int
deriving DecidableEq, Repr

/-- Python `datetime` strict order (lexicographic on date, then time). -/
def Timestamp.ltb (a b : Timestamp) : Bool :=
  a.date < b.date || (a.date == b.date && a.minute < b.minute)

/-- One cell of a DataFrame: either a timestamp (the Waktu column) or a
numeric gas value. -/
inductive Cell where
  | time (t : Timestamp)
  | num (x : ℚ)
deriving DecidableEq, Repr

/-- The pandas dtype of a column, to the granularity the program can
observe: the `.dt` accessor is available exactly on datetime-like
columns.  A column built by `pd.to_datetime` is `datetime64`; a column
built from a plain Python list — including the empty lists of the
failure-path frame — is not. -/
inductive Dtype where
  | datetime64
  | nonDatetime
deriving DecidableEq, Repr

/-- A pandas DataFrame: ordered column names, their dtypes, and rows.
The frames built by `gui11.py` always have the columns
`["Waktu", "CO2_ppm", "CH4_ppb"]`. -/
structure DataFrame where
  columns : List String
  dtypes : List Dtype
  rows : List (List Cell)
deriving DecidableEq, Repr

def airColumns : List String := ["Waktu", "CO2_ppm", "CH4_ppb"]

/-- The value returned on every failure path of `get_air_quality_data`:
an air-quality frame with zero rows.  Every column is built from a plain
empty Python list, so none of them is datetime-like — in particular the
`.dt` accessor is NOT available on its Waktu column. -/
def emptyAirFrame : DataFrame :=
  ⟨airColumns, [.nonDatetime, .nonDatetime, .nonDatetime], []⟩

/-- The Python exceptions that can arise inside the `try` block of
`get_air_quality_data` (lines 49-59 of gui11.py). -/
inductive PyErr where
  | requestError    -- requests.get raised (transport error / timeout)
  | jsonError       -- resp.json() raised (body is not JSON)
  | keyError        -- data["hourly"]["time"|"carbon_dioxide"|"methane"] missing
  | parseError      -- pd.to_datetime raised on an unparseable time string
  | valueError      -- pd.DataFrame raised: arrays of unequal length
  | attributeError  -- the .dt accessor used on a non-datetime-like column
deriving DecidableEq, Repr

/-- The `hourly` JSON object: each key may be absent (`none`), and each raw
time string either parses to a `Timestamp` or does not (`none`). -/
structure RawHourly where
  time : Option (List (Option Timestamp))
  carbon_dioxide : Option (List ℚ)
  methane : Option (List ℚ)

/-- The decoded top-level JSON body; the `hourly` key may be absent. -/
structure ApiData where
  hourly : Option RawHourly

/-- The outcome of `requests.get(url, ...).json()`: the request itself may
raise, the body may fail to decode, or a JSON payload is produced. -/
inductive ApiOutcome where
  | transportError
  | invalidJson
  | payload (data : ApiData)

/-- Dictionary lookup `d[k]`: a missing key raises `KeyError`. -/
def getKey {α : Type} : Option α → Except PyErr α
  | some a => .ok a
  | none => .error .keyError

/-- Model of `pd.to_datetime(list_of_strings)`: raises if any element is
unparseable, otherwise converts the whole list one-to-one. -/
def parseTimes : List (Option Timestamp) → Except PyErr (List Timestamp)
  | [] => .ok []
  | none :: _ => .error .parseError
  | some t :: rest => (parseTimes rest).map (fun ts => t :: ts)

/-- Model of the constructor call on line 57, which passes the three
arrays as a dict of columns: pandas raises `ValueError` unless all three
arrays have the same length, and otherwise builds the three-column frame
row by row. -/
def mkAirFrame (ts : List Timestamp) (co2 ch4 : List ℚ) :
    Except PyErr DataFrame :=
  if co2.length = ts.length ∧ ch4.length = ts.length then
    .ok ⟨airColumns, [.datetime64, .nonDatetime, .nonDatetime],
      (ts.zip (co2.zip ch4)).map
        (fun p => [Cell.time p.1, Cell.num p.2.1, Cell.num p.2.2])⟩
  else .error .valueError

/-- The body of the `try` block of `get_air_quality_data` (lines 50-57):
every partial Python operation is sequenced in `Except`. -/
def getAirQualityDataCore : ApiOutcome → Except PyErr DataFrame
  | .transportError => .error .requestError
  | .invalidJson => .error .jsonError
  | .payload d =>
    match d.hourly with
    | none => .ok emptyAirFrame
    | some h => do
      let rawTimes ← getKey h.time
      let times ← parseTimes rawTimes
      let co2 ← getKey h.carbon_dioxide
      let ch4 ← getKey h.methane
      mkAirFrame times co2 ch4

/-- The fetcher `get_air_quality_data` (lines 31-59): the
`try/except Exception` wrapper turns every raised exception into the
empty three-column frame. -/
def get_air_quality_data (r : ApiOutcome) : DataFrame :=
  match getAirQualityDataCore r with
  | .ok df => df
  | .error _ => emptyAirFrame

/-! ### View filters

`update_graph` (line 265):   `df[df["Waktu"].dt.date == today]`
`update_forecast` (line 306): `df[df["Waktu"] > now]`
`ambil_data` (lines 389-390): `df[(df["Waktu"].dt.date >= start_date) &
                                  (df["Waktu"].dt.date <= end_date)]`

Each builds a boolean mask from the column named "Waktu" and keeps the rows
where the mask is true, leaving the column list unchanged. -/

/-- Row selection by a boolean mask over the column called `name`,
preserving the column names and dtypes.  The column is found by name; all
frames in the program carry the "Waktu" column, so the missing-column
branch (a `KeyError` in Python) is unreachable in the uses made by the
program. -/
def DataFrame.filterBy (df : DataFrame) (name : String) (p : Cell → Bool) :
    DataFrame :=
  match df.columns.indexOf? name with
  | some i =>
    ⟨df.columns, df.dtypes, df.rows.filter (fun r =>
      match r.get? i with
      | some c => p c
      | none => false)⟩
  | none => ⟨df.columns, df.dtypes, []⟩

/-- The dtype of the column called `name`, as inspected by the pandas
`.dt` accessor. -/
def DataFrame.dtypeOf (df : DataFrame) (name : String) : Option Dtype :=
  match df.columns.indexOf? name with
  | some i => df.dtypes.get? i
  | none => none

/-- Mask of `update_graph`: `.dt.date == today`.  A non-time cell never
occurs in a "Waktu" column of this program. -/
def cellDateEq (d : Int) : Cell → Bool
  | .time t => t.date == d
  | .num _ => false

/-- Realtime filter (line 265), `df[df["Waktu"].dt.date == today]`.
Building the mask uses the `.dt` accessor, which raises
`AttributeError` when the Waktu column is not datetime-like — which is
exactly the failure-path frame of the fetcher, whose columns come from
plain empty Python lists.  Nothing in `update_graph` catches this, so the
error escapes into the Tk callback. -/
def filterToday (today : Int) (df : DataFrame) : Except PyErr DataFrame :=
  if df.dtypeOf "Waktu" = some .datetime64 then
    .ok (df.filterBy "Waktu" (cellDateEq today))
  else .error .attributeError

/-- Mask of `update_forecast`: `df["Waktu"] > now`. -/
def cellAfter (now : Timestamp) : Cell → Bool
  | .time t => now.ltb t
  | .num _ => false

/-- Forecast filter (line 306), `df[df["Waktu"] > now]`.  This mask does
not use the `.dt` accessor: an elementwise comparison on the empty
failure-path column yields an empty mask without raising, so the filter
is total. -/
def filterForecast (now : Timestamp) (df : DataFrame) : DataFrame :=
  df.filterBy "Waktu" (cellAfter now)

/-- Mask of `ambil_data`: `(date >= start) & (date <= end)`. -/
def cellInRange (s e : Int) : Cell → Bool
  | .time t => decide (s ≤ t.date) && decide (t.date ≤ e)
  | .num _ => false

/-- Period filter (lines 389-390),
`df[(df["Waktu"].dt.date >= start) & (df["Waktu"].dt.date <= end)]`.
Like the realtime filter it builds its masks through `.dt`, so it raises
`AttributeError` on the failure-path frame, uncaught in `ambil_data`. -/
def filterPeriode (s e : Int) (df : DataFrame) : Except PyErr DataFrame :=
  if df.dtypeOf "Waktu" = some .datetime64 then
    .ok (df.filterBy "Waktu" (cellInRange s e))
  else .error .attributeError

/-! ### Status classifier (`show_kpi`, lines 163-188) -/

inductive Status where
  | normal
  | waspada
  | tinggi
deriving DecidableEq, Repr

/-- The `status_levels` ranking dict of line 182: Normal 1, Waspada 2,
Tinggi 3. -/
def statusLevel : Status → Nat
  | .normal => 1
  | .waspada => 2
  | .tinggi => 3

/-- CO₂ bucketing of `show_kpi` (lines 167-172), mirroring the Python
`if co2_avg < 450 / elif 450 <= co2_avg <= 500 / else` chain. -/
def statusCO2 (x : ℚ) : Status :=
  if x < 450 then .normal
  else if 450 ≤ x ∧ x ≤ 500 then .waspada
  else .tinggi

/-- CH₄ bucketing of `show_kpi` (lines 175-180). -/
def statusCH4 (x : ℚ) : Status :=
  if x < 1950 then .normal
  else if 1950 ≤ x ∧ x ≤ 2000 then .waspada
  else .tinggi

/-- The combined status of lines 183-184, which takes the maximum of the
two statuses by `status_levels` key: Python `max` keeps the first element
on a key tie. -/
def overallStatus (a b : Status) : Status :=
  if statusLevel a < statusLevel b then b else a

/-! ### Series layer and CSV export

The data model of the spec calls a fetched table a Series of Readings. -/

/-- One Reading: a timestamp plus the two gas values. -/
structure Reading where
  waktu : Timestamp
  co2_ppm : ℚ
  ch4_ppb : ℚ
deriving DecidableEq, Repr

/-- The DataFrame row of a Reading, in the column order of the program. -/
def Reading.toCells (r : Reading) : List Cell :=
  [Cell.time r.waktu, Cell.num r.co2_ppm, Cell.num r.ch4_ppb]

/-- The three-column frame holding a list of Readings, as produced by a
successful fetch: its Waktu column came through `pd.to_datetime` and is
datetime-like. -/
def seriesFrame (s : List Reading) : DataFrame :=
  ⟨airColumns, [.datetime64, .nonDatetime, .nonDatetime],
    s.map Reading.toCells⟩

/-- Human-readable cell text as written into the CSV file. -/
def Cell.render : Cell → String
  | .time t => toString t.date ++ " " ++ toString t.minute
  | .num x => if x.den = 1 then toString x.num
              else toString x.num ++ "/" ++ toString x.den

/-- Model of `df.to_csv(file_path, index=False)` (line 216): one header
line built from the column names, then one comma-joined line per row. -/
def DataFrame.toCsvLines (df : DataFrame) : List String :=
  String.intercalate "," df.columns ::
    df.rows.map (fun r => String.intercalate "," (r.map Cell.render))

/-! ## Helper lemmas -/

/-- The nested chained comparison of lines 167-172 collapses to simple
interval tests. -/
lemma statusCO2_eq_simple (x : ℚ) :
    statusCO2 x =
      if x < 450 then .normal else if x ≤ 500 then .waspada else .tinggi := by
  unfold statusCO2
  rcases lt_or_le x 450 with h | h
  · rw [if_pos h, if_pos h]
  · rw [if_neg (not_lt.mpr h), if_neg (not_lt.mpr h)]
    rcases le_or_lt x 500 with h2 | h2
    · rw [if_pos ⟨h, h2⟩, if_pos h2]
    · rw [if_neg (fun hc => absurd h2 (not_lt.mpr hc.2)),
          if_neg (not_le.mpr h2)]

/-- The nested chained comparison of lines 175-180 collapses to simple
interval tests. -/
lemma statusCH4_eq_simple (x : ℚ) :
    statusCH4 x =
      if x < 1950 then .normal else if x ≤ 2000 then .waspada else .tinggi := by
  unfold statusCH4
  rcases lt_or_le x 1950 with h | h
  · rw [if_pos h, if_pos h]
  · rw [if_neg (not_lt.mpr h), if_neg (not_lt.mpr h)]
    rcases le_or_lt x 2000 with h2 | h2
    · rw [if_pos ⟨h, h2⟩, if_pos h2]
    · rw [if_neg (fun hc => absurd h2 (not_lt.mpr hc.2)),
          if_neg (not_le.mpr h2)]

lemma statusCO2_level_mono {x y : ℚ} (h : x ≤ y) :
    statusLevel (statusCO2 x) ≤ statusLevel (statusCO2 y) := by
  rw [statusCO2_eq_simple, statusCO2_eq_simple]
  split_ifs <;> simp only [statusLevel] <;>
    first | omega | (exfalso; linarith)

lemma statusCH4_level_mono {x y : ℚ} (h : x ≤ y) :
    statusLevel (statusCH4 x) ≤ statusLevel (statusCH4 y) := by
  rw [statusCH4_eq_simple, statusCH4_eq_simple]
  split_ifs <;> simp only [statusLevel] <;>
    first | omega | (exfalso; linarith)

/-- The severity level of the combined status is the max of the two
levels. -/
lemma overallStatus_level (a b : Status) :
    statusLevel (overallStatus a b) = max (statusLevel a) (statusLevel b) := by
  cases a <;> cases b <;> rfl

/-- The worked example of the spec: an averaged CO₂ of 460 ppm sits in
the middle bucket. -/
lemma statusCO2_at_460 : statusCO2 460 = .waspada := by
  rw [statusCO2_eq_simple, if_neg (by norm_num), if_pos (by norm_num)]

/-- The worked example of the spec: an averaged CH₄ of 1000 ppb sits in
the low bucket. -/
lemma statusCH4_at_1000 : statusCH4 1000 = .normal := by
  rw [statusCH4_eq_simple, if_pos (by norm_num)]

/-- A frame built by the dict-of-columns constructor carries exactly the
three air-quality column names. -/
lemma mkAirFrame_ok_columns {ts : List Timestamp} {co2 ch4 : List ℚ}
    {df : DataFrame} (h : mkAirFrame ts co2 ch4 = .ok df) :
    df.columns = airColumns := by
  unfold mkAirFrame at h
  split_ifs at h
  cases h
  rfl

/-- Every successful run of the try-block body yields a frame with the
three air-quality columns. -/
lemma getCore_ok_columns {r : ApiOutcome} {df : DataFrame}
    (h : getAirQualityDataCore r = .ok df) : df.columns = airColumns := by
  cases r with
  | transportError => cases h
  | invalidJson => cases h
  | payload d =>
    rcases d with ⟨hourly⟩
    cases hourly with
    | none =>
      cases h
      rfl
    | some hh =>
      rcases hh with ⟨time, co2, ch4⟩
      cases time with
      | none => cases h
      | some rawTimes =>
        simp only [getAirQualityDataCore, getKey, bind, Except.bind] at h
        cases hp : parseTimes rawTimes with
        | error e => rw [hp] at h; cases h
        | ok ts =>
          rw [hp] at h
          cases co2 with
          | none => cases h
          | some co2v =>
            cases ch4 with
            | none => cases h
            | some ch4v => exact mkAirFrame_ok_columns h

/-- Parsing a list of well-formed raw times succeeds one-to-one. -/
lemma parseTimes_map_some (ts : List Timestamp) :
    parseTimes (ts.map some) = .ok ts := by
  induction ts with
  | nil => rfl
  | cons t rest ih => simp [parseTimes, ih, Except.map]

/-! ## Claim theorems -/

/-- C1: the fetcher never raises — it is a total function of the API
outcome — and on a transport error, a body that fails to decode, any
exception inside the try block (missing field, unparseable time,
mismatched array lengths), or a payload lacking the `hourly` key, it
returns the empty Series: the frame with columns Waktu, CO2_ppm, CH4_ppb
and zero rows. -/
theorem fetcher_failure_empty :
    (∀ (r : ApiOutcome) (e : PyErr), getAirQualityDataCore r = .error e →
      get_air_quality_data r = emptyAirFrame) ∧
    get_air_quality_data .transportError = emptyAirFrame ∧
    get_air_quality_data .invalidJson = emptyAirFrame ∧
    ∀ d : ApiData, d.hourly = none →
      get_air_quality_data (.payload d) = emptyAirFrame := by
  refine ⟨fun r e h => ?_, rfl, rfl, fun d hd => ?_⟩
  · unfold get_air_quality_data
    rw [h]
  · rcases d with ⟨hourly⟩
    cases hd
    rfl

/-- Witness for C1: a payload whose single raw time is unparseable makes
the try block raise and the fetcher return the empty frame, and a payload
without the `hourly` key returns the empty frame directly. -/
theorem fetcher_failure_empty_witness :
    (getAirQualityDataCore
        (.payload ⟨some ⟨some [none], some [], some []⟩⟩) =
      .error .parseError ∧
     get_air_quality_data
        (.payload ⟨some ⟨some [none], some [], some []⟩⟩) = emptyAirFrame) ∧
    (ApiData.hourly ⟨none⟩ = none ∧
     get_air_quality_data (.payload ⟨none⟩) = emptyAirFrame) :=
  ⟨⟨rfl, fetcher_failure_empty.1 _ .parseError rfl⟩,
   ⟨rfl, fetcher_failure_empty.2.2.2 ⟨none⟩ rfl⟩⟩

/-- C9: every value the fetcher returns carries exactly the three columns
Waktu, CO2_ppm, CH4_ppb in that order, and each view filter leaves the
column list unchanged whenever it produces a frame — the crash path of
the realtime and period filters produces no frame at all, so every frame
the program displays or exports has exactly these three columns. -/
theorem frames_three_columns :
    (∀ r : ApiOutcome, (get_air_quality_data r).columns = airColumns) ∧
    (∀ (df df2 : DataFrame) (t : Int), filterToday t df = .ok df2 →
      df2.columns = df.columns) ∧
    (∀ (df : DataFrame) (n : Timestamp),
      (filterForecast n df).columns = df.columns) ∧
    (∀ (df df2 : DataFrame) (s e : Int), filterPeriode s e df = .ok df2 →
      df2.columns = df.columns) := by
  have hfil : ∀ (df : DataFrame) (name : String) (p : Cell → Bool),
      (df.filterBy name p).columns = df.columns := by
    intro df name p
    unfold DataFrame.filterBy
    cases df.columns.indexOf? name <;> rfl
  refine ⟨fun r => ?_, fun df df2 t h => ?_, fun df n => hfil df _ _,
    fun df df2 s e h => ?_⟩
  · unfold get_air_quality_data
    cases h : getAirQualityDataCore r with
    | error e => rfl
    | ok df => exact getCore_ok_columns h
  · unfold filterToday at h
    split_ifs at h
    cases h
    exact hfil df _ _
  · unfold filterPeriode at h
    split_ifs at h
    cases h
    exact hfil df _ _

/-- Witness for C9: the realtime and period filters succeed on the empty
successfully-fetched frame, where the column list is indeed preserved. -/
theorem frames_three_columns_witness :
    (filterToday 0 (seriesFrame []) = .ok (seriesFrame []) ∧
     (seriesFrame []).columns = (seriesFrame []).columns) ∧
    (filterPeriode 0 0 (seriesFrame []) = .ok (seriesFrame []) ∧
     (seriesFrame []).columns = (seriesFrame []).columns) :=
  ⟨⟨rfl, frames_three_columns.2.1 (seriesFrame []) (seriesFrame []) 0 rfl⟩,
   ⟨rfl, frames_three_columns.2.2.2 (seriesFrame []) (seriesFrame []) 0 0 rfl⟩⟩

/-- C3: in the realtime view, the CO₂ status is the fixed three-way
bucketing of the averaged value: below 450 ppm is Normal, between 450 and
500 ppm inclusive is Waspada, above 500 ppm is Tinggi. -/
theorem co2_bucketing (x : ℚ) :
    (x < 450 → statusCO2 x = .normal) ∧
    (450 ≤ x → x ≤ 500 → statusCO2 x = .waspada) ∧
    (500 < x → statusCO2 x = .tinggi) := by
  rw [statusCO2_eq_simple]
  refine ⟨fun h => ?_, fun h1 h2 => ?_, fun h => ?_⟩
  · rw [if_pos h]
  · rw [if_neg (not_lt.mpr h1), if_pos h2]
  · rw [if_neg (by linarith), if_neg (not_le.mpr h)]

/-- Witness for C3: the three buckets realized at 449, 460 and 501 ppm. -/
theorem co2_bucketing_witness :
    ((449 : ℚ) < 450 ∧ statusCO2 449 = .normal) ∧
    ((450 : ℚ) ≤ 460 ∧ (460 : ℚ) ≤ 500 ∧ statusCO2 460 = .waspada) ∧
    ((500 : ℚ) < 501 ∧ statusCO2 501 = .tinggi) :=
  ⟨⟨by norm_num, (co2_bucketing 449).1 (by norm_num)⟩,
   ⟨by norm_num, by norm_num,
     (co2_bucketing 460).2.1 (by norm_num) (by norm_num)⟩,
   ⟨by norm_num, (co2_bucketing 501).2.2 (by norm_num)⟩⟩

/-- C10: the CH₄ status is bucketed by the fixed thresholds of lines
175-180: below 1950 ppb is Normal, between 1950 and 2000 ppb inclusive is
Waspada, above 2000 ppb is Tinggi. -/
theorem ch4_bucketing (x : ℚ) :
    (x < 1950 → statusCH4 x = .normal) ∧
    (1950 ≤ x → x ≤ 2000 → statusCH4 x = .waspada) ∧
    (2000 < x → statusCH4 x = .tinggi) := by
  rw [statusCH4_eq_simple]
  refine ⟨fun h => ?_, fun h1 h2 => ?_, fun h => ?_⟩
  · rw [if_pos h]
  · rw [if_neg (not_lt.mpr h1), if_pos h2]
  · rw [if_neg (by linarith), if_neg (not_le.mpr h)]

/-- Witness for C10: the three buckets realized at 1900, 1975 and
2001 ppb. -/
theorem ch4_bucketing_witness :
    ((1900 : ℚ) < 1950 ∧ statusCH4 1900 = .normal) ∧
    ((1950 : ℚ) ≤ 1975 ∧ (1975 : ℚ) ≤ 2000 ∧ statusCH4 1975 = .waspada) ∧
    ((2000 : ℚ) < 2001 ∧ statusCH4 2001 = .tinggi) :=
  ⟨⟨by norm_num, (ch4_bucketing 1900).1 (by norm_num)⟩,
   ⟨by norm_num, by norm_num,
     (ch4_bucketing 1975).2.1 (by norm_num) (by norm_num)⟩,
   ⟨by norm_num, (ch4_bucketing 2001).2.2 (by norm_num)⟩⟩

/-- C4: the combined status is the higher-severity of the two per-gas
statuses under the ranking Normal < Waspada < Tinggi, and averaged
CO₂ = 460 with averaged CH₄ = 1000 gives statuses Waspada, Normal and
combined Waspada. -/
theorem combined_status_max :
    (∀ a b : Status,
      statusLevel (overallStatus a b) = max (statusLevel a) (statusLevel b) ∧
      (overallStatus a b = a ∨ overallStatus a b = b)) ∧
    statusCO2 460 = .waspada ∧ statusCH4 1000 = .normal ∧
    overallStatus (statusCO2 460) (statusCH4 1000) = .waspada := by
  refine ⟨fun a b => ⟨overallStatus_level a b, ?_⟩, ?_, ?_, ?_⟩
  · cases a <;> cases b <;> simp [overallStatus, statusLevel]
  · exact statusCO2_at_460
  · exact statusCH4_at_1000
  · rw [statusCO2_at_460, statusCH4_at_1000]
    rfl

/-- C5: the combined status is monotone in both averaged gas values under
the severity ranking. -/
theorem status_monotone (x₁ x₂ y₁ y₂ : ℚ) (hx : x₁ ≤ x₂) (hy : y₁ ≤ y₂) :
    statusLevel (overallStatus (statusCO2 x₁) (statusCH4 y₁)) ≤
      statusLevel (overallStatus (statusCO2 x₂) (statusCH4 y₂)) := by
  rw [overallStatus_level, overallStatus_level]
  exact max_le_max (statusCO2_level_mono hx) (statusCH4_level_mono hy)

/-- Witness for C5: monotonicity instantiated at 440 ≤ 460 and
1000 ≤ 1000. -/
theorem status_monotone_witness :
    ((440 : ℚ) ≤ 460 ∧ (1000 : ℚ) ≤ 1000) ∧
    statusLevel (overallStatus (statusCO2 440) (statusCH4 1000)) ≤
      statusLevel (overallStatus (statusCO2 460) (statusCH4 1000)) :=
  ⟨⟨by norm_num, le_refl _⟩,
   status_monotone 440 460 1000 1000 (by norm_num) (le_refl _)⟩

/-- On a payload whose three `hourly` arrays are present and whose times
all parse, the try block reduces to the dict-of-columns constructor. -/
lemma getCore_wellformed (ts : List Timestamp) (co2 ch4 : List ℚ) :
    getAirQualityDataCore
        (.payload ⟨some ⟨some (ts.map some), some co2, some ch4⟩⟩) =
      mkAirFrame ts co2 ch4 := by
  simp only [getAirQualityDataCore, getKey, bind, Except.bind,
    parseTimes_map_some]

/-- C2 corrected claim: when the `time`, `carbon_dioxide` and `methane`
arrays all have the same length, the fetched Series has exactly that many
rows and its i-th timestamp is the parse of the i-th `time` element; when
the gas arrays have different lengths the constructor raises and the
fetcher returns the empty Series instead of one of the shorter length
(see the counterexample `GrkApp.fetch_length_counterexample`). -/
theorem fetch_wellformed_length (ts : List Timestamp) (co2 ch4 : List ℚ)
    (h1 : co2.length = ts.length) (h2 : ch4.length = ts.length) :
    (get_air_quality_data
        (.payload ⟨some ⟨some (ts.map some), some co2, some ch4⟩⟩)).rows.length
        = ts.length ∧
    (get_air_quality_data
        (.payload ⟨some ⟨some (ts.map some), some co2,
          some ch4⟩⟩)).rows.map List.head? =
        ts.map (fun t => some (Cell.time t)) := by
  unfold get_air_quality_data
  rw [getCore_wellformed]
  unfold mkAirFrame
  rw [if_pos ⟨h1, h2⟩]
  have hz : (co2.zip ch4).length = ts.length := by
    rw [List.length_zip, h1, h2, Nat.min_self]
  constructor
  · simp only [List.length_map, List.length_zip, hz, Nat.min_self]
  · rw [List.map_map]
    have hmap : (List.head? ∘ fun p : Timestamp × (ℚ × ℚ) =>
        [Cell.time p.1, Cell.num p.2.1, Cell.num p.2.2]) =
        (fun t => some (Cell.time t)) ∘ Prod.fst := rfl
    rw [hmap, ← List.map_map]
    rw [List.map_fst_zip ts (co2.zip ch4) (le_of_eq hz.symm)]

/-- Witness for C2 (corrected): a single well-formed triple of
one-element arrays yields a one-row frame whose timestamp comes from the
`time` array. -/
theorem fetch_wellformed_length_witness :
    ([(400 : ℚ)].length = [Timestamp.mk 0 0].length ∧
     [(1900 : ℚ)].length = [Timestamp.mk 0 0].length) ∧
    ((get_air_quality_data
        (.payload ⟨some ⟨some ([Timestamp.mk 0 0].map some),
          some [(400 : ℚ)], some [(1900 : ℚ)]⟩⟩)).rows.length
        = [Timestamp.mk 0 0].length ∧
     (get_air_quality_data
        (.payload ⟨some ⟨some ([Timestamp.mk 0 0].map some),
          some [(400 : ℚ)], some [(1900 : ℚ)]⟩⟩)).rows.map List.head? =
        [Timestamp.mk 0 0].map (fun t => some (Cell.time t))) :=
  ⟨⟨rfl, rfl⟩,
   fetch_wellformed_length [Timestamp.mk 0 0] [(400 : ℚ)] [(1900 : ℚ)]
     rfl rfl⟩

/-- Counterexample to C2 as stated: a payload whose `hourly` arrays are
non-empty but of unequal lengths (time and methane have one element,
carbon dioxide has two).  The shorter of the two gas arrays has length 1,
but the fetcher returns the empty Series with 0 rows, because the
DataFrame constructor raises on unequal lengths and the except clause
swallows the error. -/
theorem fetch_length_counterexample :
    (get_air_quality_data
        (.payload ⟨some ⟨some [some (Timestamp.mk 0 0)],
          some [(400 : ℚ), 410], some [(1900 : ℚ)]⟩⟩)).rows.length ≠
      min [(400 : ℚ), 410].length [(1900 : ℚ)].length := by
  decide

/-- Filtering by the same named mask twice is the same as filtering
once. -/
lemma filterBy_idem (df : DataFrame) (name : String) (p : Cell → Bool) :
    (df.filterBy name p).filterBy name p = df.filterBy name p := by
  unfold DataFrame.filterBy
  cases h : df.columns.indexOf? name with
  | none => simp [h]
  | some i => simp [h, List.filter_filter]

/-- The filter by a mask over the "Waktu" column of a frame of Readings
keeps exactly the Readings whose timestamp cell satisfies the mask. -/
lemma filterBy_seriesFrame (s : List Reading) (p : Cell → Bool) :
    (seriesFrame s).filterBy "Waktu" p =
      seriesFrame (s.filter (fun r => p (Cell.time r.waktu))) := by
  have hidx : airColumns.indexOf? "Waktu" = some 0 := rfl
  unfold seriesFrame DataFrame.filterBy
  simp only [hidx, List.get?_eq_getElem?]
  congr 1
  induction s with
  | nil => rfl
  | cons r rest ih =>
    simp only [List.map_cons, List.filter_cons, Reading.toCells]
    cases hp : p (Cell.time r.waktu) <;>
      simp [hp, ih, Reading.toCells]

/-- Mask filtering changes only the rows, so the dtype seen by a later
`.dt` access is unchanged. -/
lemma dtypeOf_filterBy (df : DataFrame) (nm nm2 : String) (p : Cell → Bool) :
    (df.filterBy nm p).dtypeOf nm2 = df.dtypeOf nm2 := by
  unfold DataFrame.filterBy DataFrame.dtypeOf
  cases h : df.columns.indexOf? nm <;> simp [h]

/-- On a successfully fetched Series the realtime filter succeeds and
keeps exactly the rows whose timestamp cell passes the date mask. -/
lemma filterToday_seriesFrame (today : Int) (s : List Reading) :
    filterToday today (seriesFrame s) =
      .ok (seriesFrame
        (s.filter (fun r => cellDateEq today (Cell.time r.waktu)))) := by
  unfold filterToday
  rw [if_pos (show (seriesFrame s).dtypeOf "Waktu" = some Dtype.datetime64
        from rfl),
      filterBy_seriesFrame]

/-- On a successfully fetched Series the period filter succeeds and keeps
exactly the rows whose timestamp cell passes the range mask. -/
lemma filterPeriode_seriesFrame (a b : Int) (s : List Reading) :
    filterPeriode a b (seriesFrame s) =
      .ok (seriesFrame
        (s.filter (fun r => cellInRange a b (Cell.time r.waktu)))) := by
  unfold filterPeriode
  rw [if_pos (show (seriesFrame s).dtypeOf "Waktu" = some Dtype.datetime64
        from rfl),
      filterBy_seriesFrame]

/-- Refiltering the result of a successful realtime filter changes
nothing; a failed filter stays the same failure. -/
lemma filterToday_idem (df : DataFrame) (today : Int) :
    (filterToday today df).bind (filterToday today) = filterToday today df := by
  by_cases h : df.dtypeOf "Waktu" = some Dtype.datetime64
  · rw [show filterToday today df
          = .ok (df.filterBy "Waktu" (cellDateEq today)) from by
        unfold filterToday
        rw [if_pos h]]
    show filterToday today (df.filterBy "Waktu" (cellDateEq today)) = _
    unfold filterToday
    rw [if_pos (by rw [dtypeOf_filterBy]; exact h), filterBy_idem]
  · unfold filterToday
    rw [if_neg h]
    rfl

/-- Refiltering the result of a successful period filter changes nothing;
a failed filter stays the same failure. -/
lemma filterPeriode_idem (df : DataFrame) (s e : Int) :
    (filterPeriode s e df).bind (filterPeriode s e) = filterPeriode s e df := by
  by_cases h : df.dtypeOf "Waktu" = some Dtype.datetime64
  · rw [show filterPeriode s e df
          = .ok (df.filterBy "Waktu" (cellInRange s e)) from by
        unfold filterPeriode
        rw [if_pos h]]
    show filterPeriode s e (df.filterBy "Waktu" (cellInRange s e)) = _
    unfold filterPeriode
    rw [if_pos (by rw [dtypeOf_filterBy]; exact h), filterBy_idem]
  · unfold filterPeriode
    rw [if_neg h]
    rfl

/-- C6: each view filter is idempotent: re-applying the realtime or
period filter to an already (successfully) filtered frame returns that
frame unchanged, a failed filter propagates the same failure, and the
forecast filter is idempotent on every frame. -/
theorem filters_idempotent (df : DataFrame) (today : Int) (now : Timestamp)
    (s e : Int) :
    (filterToday today df).bind (filterToday today) = filterToday today df ∧
    filterForecast now (filterForecast now df) = filterForecast now df ∧
    (filterPeriode s e df).bind (filterPeriode s e) = filterPeriode s e df :=
  ⟨filterToday_idem df today,
   filterBy_idem df "Waktu" (cellAfter now),
   filterPeriode_idem df s e⟩

/-- C7: on a successfully fetched Series the realtime filter keeps
exactly the Readings dated today, the forecast filter keeps exactly the
Readings with timestamp strictly after now, and the period filter keeps
exactly the Readings whose date lies inclusively between start and end —
but on the empty frame of a failed fetch, the realtime and period views
raise AttributeError instead of keeping the (zero) matching Readings,
because the Waktu column of that frame is not datetime-like, so the claim
and the no-crash design of the spec are violated by the code there; only
the forecast filter degrades to the empty frame. -/
theorem filters_crash_on_failure_frame :
    (∀ (s : List Reading) (today : Int) (now : Timestamp) (a b : Int),
      filterToday today (seriesFrame s) =
        .ok (seriesFrame (s.filter (fun r => r.waktu.date == today))) ∧
      filterForecast now (seriesFrame s) =
        seriesFrame (s.filter (fun r => now.ltb r.waktu)) ∧
      filterPeriode a b (seriesFrame s) =
        .ok (seriesFrame (s.filter (fun r =>
          decide (a ≤ r.waktu.date) && decide (r.waktu.date ≤ b))))) ∧
    filterToday 0 (get_air_quality_data .transportError) =
      .error .attributeError ∧
    filterPeriode 0 0 (get_air_quality_data .transportError) =
      .error .attributeError ∧
    filterForecast (Timestamp.mk 0 0) (get_air_quality_data .transportError) =
      emptyAirFrame := by
  refine ⟨fun s today now a b => ⟨?_, ?_, ?_⟩, rfl, rfl, rfl⟩
  · exact filterToday_seriesFrame today s
  · exact filterBy_seriesFrame s (cellAfter now)
  · exact filterPeriode_seriesFrame a b s

/-- C8: the CSV export of a displayed frame of Readings has the header
line Waktu,CO2_ppm,CH4_ppb followed by one line per row; in particular the
Period view with start = end = today applied to a single Reading dated
today exports exactly two lines. -/
theorem csv_export_shape :
    (∀ s : List Reading,
      (seriesFrame s).toCsvLines.length = s.length + 1 ∧
      (seriesFrame s).toCsvLines.head? = some "Waktu,CO2_ppm,CH4_ppb") ∧
    ∀ (d mi : Int) (c m : ℚ),
      (filterPeriode d d
          (seriesFrame [Reading.mk (Timestamp.mk d mi) c m])).map
        (fun df => df.toCsvLines.length) = .ok 2 := by
  constructor
  · intro s
    constructor
    · simp [DataFrame.toCsvLines, seriesFrame]
    · rfl
  · intro d mi c m
    rw [filterPeriode_seriesFrame]
    simp [Except.map, seriesFrame, DataFrame.toCsvLines, cellInRange]

end GrkApp
